import Mathlib

/-!
Verification of the CLIP graph-construction code in
`examples/clip/model.py` and `examples/clip/model_mlx.py`.

The source builds computation graphs from primitive operations (Linear,
LayerNorm, ScaledDotProduct, Concat, ArgMax, ...).  We shallowly embed the
numerical semantics of the graphs each builder function constructs:
tensors become Lean functions or lists of reals/rationals, the builder
functions become Lean functions producing the value the graph computes,
and graph-construction-time checks (Python `assert`) become `Except`
results.  Data-routing components (concatenation, slicing, argmax
selection) are embedded polymorphically in the entry type, since they
never inspect the numeric entries.
-/

noncomputable section

/-! ## Lp-norm reducer (`norm`, model.py lines 498-512 / model_mlx.py lines 259-279)

The builder receives `p` (an int, or the string "inf") and chains
reduction operations along the configured axis.  We embed the values
lying along that axis as a `List ℝ`; `keepdim` only affects the shape
bookkeeping of the surrounding graph, not the reduced value. -/

/-- The `p` argument of `norm`: either the string "inf" or an integer. -/
inductive NormP where
  | inf : NormP
  | ip : ℕ → NormP

/-- `Abs` applied elementwise (`input.abs()`). -/
def absT (xs : List ℝ) : List ℝ := xs.map (fun x => |x|)

/-- Squaring applied elementwise (`input ** 2`). -/
def sqT (xs : List ℝ) : List ℝ := xs.map (fun x => x ^ 2)

/-- Natural power applied elementwise (`input.abs() ** p`). -/
def powT (p : ℕ) (xs : List ℝ) : List ℝ := xs.map (fun x => x ^ p)

/-- The `Sum` reduction along the configured axis. -/
def sumA (xs : List ℝ) : ℝ := xs.sum

/-- The `Max` reduction along the configured axis (needs nonempty input,
as the framework's `Max` does; we return 0 on the empty axis). -/
def maxA : List ℝ → ℝ
  | [] => 0
  | x :: xs => xs.foldl max x

/-- The `Sqrt` operation. -/
def sqrtS (x : ℝ) : ℝ := Real.sqrt x

/-- The `Power(exponent=e)` operation (real exponent, as Python `1/p`). -/
def powS (e : ℝ) (x : ℝ) : ℝ := x ^ e

/-- `norm(p, axis, keepdim)` from model.py lines 498-512 (identical in
model_mlx.py lines 259-279): the chain of reduction operations the
builder assembles, by the same `if p == "inf" / elif p == 1 / elif p == 2
/ else` branching. -/
def norm : NormP → List ℝ → ℝ
  | .inf, xs => maxA (absT xs)
  | .ip 1, xs => sumA (absT xs)
  | .ip 2, xs => sqrtS (sumA (sqT xs))
  | .ip p, xs => powS ((1 : ℝ) / p) (sumA (powT p (absT xs)))

/-! ## CLIP similarity tail (`clip`, model.py lines 641-665)

`image_features` and `text_features` are the projected (B, D) feature
matrices, embedded as functions of the row and feature index; the code
divides each by its own p=2 norm along axis 1 (keepdim), forms
`logit_scale.exp() * (image_features @ text_features.transpose())` and
transposes it. -/

/-- A row of a (B, D) feature matrix, as the list of its D entries. -/
def rowList (D : ℕ) (f : ℕ → ℕ → ℝ) (b : ℕ) : List ℝ :=
  (List.range D).map (f b)

/-- `features / features.norm(p=2, axis=1, keepdim=True)`: entry (b, d)
of the normalized feature matrix. -/
def normalizedFeatures (D : ℕ) (f : ℕ → ℕ → ℝ) (b d : ℕ) : ℝ :=
  f b d / norm (.ip 2) (rowList D f b)

/-- `logits_per_image = logit_scale.exp() * (image_features @
text_features.transpose())` (model.py line 659), entry (i, j), after the
norm-divisions of lines 654-655. -/
def logits_per_image (D : ℕ) (logit_scale : ℝ) (imgF txtF : ℕ → ℕ → ℝ)
    (i j : ℕ) : ℝ :=
  Real.exp logit_scale *
    ∑ k ∈ Finset.range D,
      normalizedFeatures D imgF i k * normalizedFeatures D txtF j k

/-- `logits_per_text = logits_per_image.transpose()` (model.py line 663),
entry (i, j). -/
def logits_per_text (D : ℕ) (logit_scale : ℝ) (imgF txtF : ℕ → ℕ → ℝ)
    (i j : ℕ) : ℝ :=
  logits_per_image D logit_scale imgF txtF j i

/-! ## Causal mask (`build_attention_mask`, model_mlx.py lines 331-342)

The mask holds the float values 0.0 and -inf; we embed a mask entry as
either a finite real or the distinguished value `negInf`, and extend
`exp` by `exp(s + -inf) = 0`, which is exactly how the -inf additive
bias acts under the softmax inside the scaled-dot-product primitive. -/

/-- An additive attention-bias entry: a finite real or -inf. -/
inductive MaskVal where
  | val : ℝ → MaskVal
  | negInf : MaskVal

/-- `build_attention_mask` (model_mlx.py lines 331-342): entry (i, j) is
`Where(arange(77)[..., None] >= arange(77)[None, ...], 0.0, -inf)`,
i.e. 0 when `i >= j` and -inf otherwise (for i, j < 77). -/
def build_attention_mask (i j : ℕ) : MaskVal :=
  if j ≤ i then .val 0 else .negInf

/-- `exp` of a score plus an additive mask entry, with
`exp(s + -inf) = 0`. -/
def maskedExp (s : ℝ) : MaskVal → ℝ
  | .val m => Real.exp (s + m)
  | .negInf => 0

/-- Modelled from the spec: the post-softmax attention weight produced by
the `ScaledDotProduct` primitive (not under src/): row i of
`softmax(scores + mask)` over the 77 key positions, where `scores i j`
is the already-scaled dot product `q_i . k_j / sqrt(head_dim)` and the
mask is the causal mask of `build_attention_mask`. -/
def attn_weight (scores : ℕ → ℕ → ℝ) (i j : ℕ) : ℝ :=
  maskedExp (scores i j) (build_attention_mask i j) /
    ∑ k ∈ Finset.range 77, maskedExp (scores i k) (build_attention_mask i k)

end

/-! ## EOT pooling (`eot_creator`, model.py lines 515-528, and the pooling
tail of `clip_text_model`, model_mlx.py lines 198-205)

Both are pure data routing over the (batch, sequence)-indexed hidden
states, so we embed them polymorphically in the entry type `α` (an entry
stands for one D-wide hidden-state row).  Token ids are naturals. -/

/-- `ArgMax(axis=-1)` on one row of token ids: the index of the first
occurrence of the maximal id. -/
def argmaxIdx (xs : List ℕ) : ℕ :=
  (List.range xs.length).foldl
    (fun best i => if xs.getD best 0 < xs.getD i 0 then i else best) 0

/-- The concat loop of `eot_creator` (model.py lines 520-526):
`batch_max_0 = input[None, 0, 0]` and
`batch_max_{i+1} = Concat(axis=0)([batch_max_i, input[None, i+1, 0]])`;
`batch_max b` therefore stacks the hidden rows at sequence position 0 of
batch rows 0..b. -/
def batch_max {α : Type} (input : ℕ → ℕ → α) : ℕ → List α
  | 0 => [input 0 0]
  | b + 1 => batch_max input b ++ [input (b + 1) 0]

/-- The named values an `eot_creator` block binds: the `argmax` output of
`ArgMax(axis=-1)(text)` (bound but never consumed downstream) and the
`output` produced by the concat loop. -/
structure EotOut (α : Type) where
  argmax : List ℕ
  output : List α

/-- `eot_creator` (model.py lines 515-528): `input` is the post-`ln_final`
hidden-state tensor indexed (batch, sequence), `text` the raw token-id
rows. -/
def eot_creator {α : Type} (batch_number : ℕ) (input : ℕ → ℕ → α)
    (text : List (List ℕ)) : EotOut α :=
  { argmax := text.map argmaxIdx
    output := batch_max input batch_number }

/-- The pooling tail of `clip_text_model` (model_mlx.py lines 198-205):
`last_hidden_state[Arange(stop=B), ArgMax(axis=-1)(input_ids)]` — row b
of the result is the hidden row of batch b at the argmax position of its
token ids. -/
def clip_text_model_pool {α : Type} (last_hidden_state : ℕ → ℕ → α)
    (input_ids : List (List ℕ)) : List α :=
  (List.range input_ids.length).map
    (fun b => last_hidden_state b (argmaxIdx (input_ids.getD b [])))

/-! ## Residual attention block wiring (model.py lines 88-106,
model_mlx.py lines 124-144)

The block builders wire named sub-models (LayerNorm, the attention
sub-model, LayerNorm, the MLP sub-model) around residual adds; we embed
the wiring with the sub-models as function parameters over any type with
addition, exactly as the builders compose them. -/

/-- `residual_attention_block` (model.py lines 88-106):
`ln_1 = LN1(input)`, `attention = Attn(ln_1)`,
`ln_2 = LN2(input + attention)`, `mlp_output = MLP(ln_2)`, and the
block's output is `input + mlp_output` (line 105). -/
def residual_attention_block {α : Type} [Add α]
    (ln1 attn ln2 mlpF : α → α) (x : α) : α :=
  x + mlpF (ln2 (x + attn (ln1 x)))

/-- `encode_layer` (model_mlx.py lines 124-144):
`ln_1_output = LN1(input)`, `attn_output = Attn(ln_1_output)`,
`ln_2_output = LN2(input + attn_output)`, `mlp_output = MLP(ln_2_output)`,
output `input + attn_output + mlp_output` (lines 140-143). -/
def encode_layer {α : Type} [Add α]
    (ln1 attn ln2 mlpF : α → α) (x : α) : α :=
  x + attn (ln1 x) + mlpF (ln2 (x + attn (ln1 x)))

/-- Modelled from the spec: the residual wiring the spec states for a
residual attention block — `output = input + Attn(LN1(input))`, then
`output2 = output + MLP(LN2(output))`. -/
def residual_block_spec {α : Type} [Add α]
    (ln1 attn ln2 mlpF : α → α) (x : α) : α :=
  (x + attn (ln1 x)) + mlpF (ln2 (x + attn (ln1 x)))

noncomputable section

/-! ## Attention-score scaling (model.py lines 23-74 and 225-281,
model_mlx.py lines 46-107)

The `ScaledDotProduct` primitive is part of the framework, not under
src/; per the spec it computes `softmax(Q Kᵗ / sqrt(head_dim) + mask) V`,
i.e. it applies the `1/sqrt(head_dim)` scaling internally.  We embed the
pre-softmax score a query/key pair produces in each attention path; the
projected per-head rows are functions of the position and feature
index, `E` is the head (feature) width. -/

/-- Dot product over the first `E` feature indices. -/
def dotE (E : ℕ) (u v : ℕ → ℝ) : ℝ := ∑ e ∈ Finset.range E, u e * v e

/-- `x @ W.transpose() + bias`: row i, output feature e. -/
def linear_proj (E : ℕ) (W : ℕ → ℕ → ℝ) (bias : ℕ → ℝ)
    (x : ℕ → ℕ → ℝ) (i e : ℕ) : ℝ :=
  dotE E (x i) (W e) + bias e

/-- Modelled from the spec: the pre-softmax score the `ScaledDotProduct`
primitive (not under src/) computes from the query/key rows it is
handed — `q_i . k_j / sqrt(head_dim)`. -/
def sdp_scores (head_dim E : ℕ) (q k : ℕ → ℕ → ℝ) (i j : ℕ) : ℝ :=
  dotE E (q i) (k j) / Real.sqrt head_dim

/-- Effective pre-softmax score of `multi_head_attention` (model.py lines
23-74): the projected per-head queries and keys are handed to
`ScaledDotProduct` unscaled. -/
def multi_head_attention_scores (head_dim E : ℕ) (q k : ℕ → ℕ → ℝ)
    (i j : ℕ) : ℝ :=
  sdp_scores head_dim E q k i j

/-- Effective pre-softmax score of `attention` (model_mlx.py lines
46-107): likewise, the `q_proj`/`k_proj` outputs are handed to
`ScaledDotProduct` unscaled. -/
def attention_scores (head_dim E : ℕ) (q k : ℕ → ℕ → ℝ) (i j : ℕ) : ℝ :=
  sdp_scores head_dim E q k i j

/-- `scaling = head_dim ** -0.5` (model.py line 245). -/
def mhaf_scaling (head_dim : ℕ) : ℝ := (head_dim : ℝ) ^ (-(1 : ℝ) / 2)

/-- The query `multi_head_attention_forward` (model.py lines 225-281)
hands to `ScaledDotProduct`:
`q = (query @ q_proj_weight.transpose() + in_proj_bias[0:D]) * scaling`
(line 247). -/
def mhaf_query (E head_dim : ℕ) (Wq : ℕ → ℕ → ℝ) (bq : ℕ → ℝ)
    (query : ℕ → ℕ → ℝ) (i e : ℕ) : ℝ :=
  linear_proj E Wq bq query i e * mhaf_scaling head_dim

/-- Effective pre-softmax score of `multi_head_attention_forward`
(model.py lines 225-281): the manually pre-scaled query and the unscaled
key are handed to `ScaledDotProduct` (line 270). -/
def multi_head_attention_forward_scores (head_dim E : ℕ)
    (query : ℕ → ℕ → ℝ) (Wq : ℕ → ℕ → ℝ) (bq : ℕ → ℝ)
    (key : ℕ → ℕ → ℝ) (Wk : ℕ → ℕ → ℝ) (bk : ℕ → ℝ) (i j : ℕ) : ℝ :=
  sdp_scores head_dim E (mhaf_query E head_dim Wq bq query)
    (linear_proj E Wk bk key) i j

end

/-! ## AttentionPool2d token sequence (`attention_pool2d`, model.py lines
284-340)

The builder flattens the (1, D, H, W) feature map to a (H*W, 1, D)
token sequence, computes the spatial mean, concatenates, and adds the
positional embedding; batch size is 1 in the source, so a token is one
D-wide row, embedded as a `List ℚ` (the routing and mean are exact
rational arithmetic, letting concrete runs be checked by `decide`). -/

/-- Elementwise sum of two D-wide rows. -/
def addRow (u v : List ℚ) : List ℚ := List.zipWith (· + ·) u v

/-- A row scaled by a rational. -/
def scaleRow (c : ℚ) (u : List ℚ) : List ℚ := u.map (fun x => c * x)

/-- Elementwise sum of a list of D-wide rows. -/
def sumRows (D : ℕ) (rows : List (List ℚ)) : List ℚ :=
  rows.foldl addRow (List.replicate D 0)

/-- `Mean(axis=0, keepdim=True)` over the token axis: the spatial mean
row. -/
def meanRow (D : ℕ) (rows : List (List ℚ)) : List ℚ :=
  scaleRow (1 / (rows.length : ℚ)) (sumRows D rows)

/-- `Flatten(start_dim=2)` followed by `Transpose(axes=(2, 0, 1))` on the
(1, D, H, W) input (model.py lines 316-317): token t (t < H*W) is the
D-wide row at spatial position (t / W, t % W). -/
def attnpool_flatten (grid : ℕ → ℕ → ℕ → ℚ) (D H W : ℕ) :
    List (List ℚ) :=
  (List.range (H * W)).map
    (fun t => (List.range D).map (fun d => grid d (t / W) (t % W)))

/-- The token sequence `x` of `attention_pool2d` (model.py lines 316-320):
`flatten`, then `mean`, then `cn1 = Concat(axis=0)([flatten, mean])`
(the mean row is appended after the spatial tokens), then
`x = cn1 + positional_embedding[:, None, :]`. -/
def attention_pool2d_x (grid : ℕ → ℕ → ℕ → ℚ) (D H W : ℕ)
    (pos : List (List ℚ)) : List (List ℚ) :=
  List.zipWith addRow
    (attnpool_flatten grid D H W ++ [meanRow D (attnpool_flatten grid D H W)])
    pos

/-- Modelled from the spec: the token sequence the spec states for
AttentionPool2d — the spatial mean is prepended as the extra token at
index 0, before the positional-embedding add. -/
def attention_pool2d_x_spec (grid : ℕ → ℕ → ℕ → ℚ) (D H W : ℕ)
    (pos : List (List ℚ)) : List (List ℚ) :=
  List.zipWith addRow
    (meanRow D (attnpool_flatten grid D H W) :: attnpool_flatten grid D H W)
    pos

/-- `attention_pool2d` (model.py lines 284-340), with the single
multi-head-attention call abstracted as `A query keys values`: the call
is made with `query = x[:1]`, `key = x`, `value = x` (lines 327-338),
and the result is squeezed to one pooled row. -/
def attention_pool2d
    (A : List (List ℚ) → List (List ℚ) → List (List ℚ) → List (List ℚ))
    (grid : ℕ → ℕ → ℕ → ℚ) (D H W : ℕ) (pos : List (List ℚ)) : List ℚ :=
  (A ((attention_pool2d_x grid D H W pos).take 1)
      (attention_pool2d_x grid D H W pos)
      (attention_pool2d_x grid D H W pos)).getD 0 []

/-! ## Bottleneck residual block (`bottleneck`, model.py lines 343-393)

We embed (a) the value-level wiring, with the primitive layers as
function parameters over any type with addition, exactly as the builder
chains them, and (b) the shape semantics of the layers involved, to
check the add-site shapes. -/

/-- The main path of `bottleneck` (model.py lines 348-369): conv1x1 →
norm → relu → conv3x3 → norm → relu → (stride-pool when stride > 1) →
conv1x1(planes*4) → norm. -/
def bottleneck_main {α : Type}
    (conv1 bn1 relu1 conv2 bn2 relu2 avgpool conv3 bn3 : α → α)
    (stride : ℕ) (x : α) : α :=
  bn3 (conv3 ((if 1 < stride then avgpool else id)
    (relu2 (bn2 (conv2 (relu1 (bn1 (conv1 x))))))))

/-- `bottleneck` (model.py lines 343-393): the output is
`relu(out1 + shortcut)` where `out1` is the main path and the shortcut
is the pooled 1x1-conv-normed projection of the input when
`stride > 1 or inplanes != planes * 4`, and the raw input otherwise. -/
def bottleneck {α : Type} [Add α] (inplanes planes stride : ℕ)
    (conv1 bn1 relu1 conv2 bn2 relu2 avgpool conv3 bn3 : α → α)
    (dpool dconv dbn relu3 : α → α) (x : α) : α :=
  if 1 < stride ∨ inplanes ≠ planes * 4 then
    relu3 (bottleneck_main conv1 bn1 relu1 conv2 bn2 relu2 avgpool conv3 bn3
      stride x + dbn (dconv (dpool x)))
  else
    relu3 (bottleneck_main conv1 bn1 relu1 conv2 bn2 relu2 avgpool conv3 bn3
      stride x + x)

/-- A (batch, channels, height, width) tensor shape. -/
structure Shape4 where
  b : ℕ
  c : ℕ
  h : ℕ
  w : ℕ
deriving DecidableEq

/-- Output shape of `Convolution2D(kernel_size=k, out_channels, stride=s,
padding=p)`: spatial size `(n + 2p - k) / s + 1` (standard convolution
shape arithmetic of the substrate). -/
def Convolution2D_shape (out_channels kernel_size stride padding : ℕ)
    (s : Shape4) : Shape4 :=
  ⟨s.b, out_channels,
    (s.h + 2 * padding - kernel_size) / stride + 1,
    (s.w + 2 * padding - kernel_size) / stride + 1⟩

/-- Output shape of `MaxPool2D(k)` (stride defaults to the kernel size):
spatial size `(n - k) / k + 1`. -/
def MaxPool2D_shape (kernel_size : ℕ) (s : Shape4) : Shape4 :=
  ⟨s.b, s.c, (s.h - kernel_size) / kernel_size + 1,
    (s.w - kernel_size) / kernel_size + 1⟩

/-- `GroupNorm` and `Relu` preserve the shape. -/
def sameShape (s : Shape4) : Shape4 := s

/-- Shape of the main path of `bottleneck` (the `out1` operand of the
residual add). -/
def bottleneck_main_shape (planes stride : ℕ) (s : Shape4) : Shape4 :=
  Convolution2D_shape (planes * 4) 1 1 0
    ((if 1 < stride then MaxPool2D_shape stride else sameShape)
      (Convolution2D_shape planes 3 1 1
        (Convolution2D_shape planes 1 1 0 s)))

/-- Shape of the shortcut operand of the residual add of `bottleneck`:
the raw input when `stride <= 1 and inplanes == planes * 4`, else the
downsample path `MaxPool2D(stride)` → `Convolution2D(kernel_size=1,
out_channels=planes*4)` → `GroupNorm`. -/
def bottleneck_shortcut_shape (inplanes planes stride : ℕ)
    (s : Shape4) : Shape4 :=
  if 1 < stride ∨ inplanes ≠ planes * 4 then
    Convolution2D_shape (planes * 4) 1 1 0 (MaxPool2D_shape stride s)
  else s

/-! ## Construction-time divisibility checks (model.py lines 23-30 and
241-244, model_mlx.py lines 46-107)

Graph construction is ordinary Python execution; we embed a builder's
construction outcome as an `Except`: `assert` failures (and the
`ZeroDivisionError` of `d % 0`) are construction-time errors. -/

/-- Construction outcome of `multi_head_attention` (model.py line 27):
`assert d_model % n_head == 0` runs while the graph is being built. -/
def multi_head_attention_construct (d_model n_head : ℕ) :
    Except String Unit :=
  if n_head = 0 then .error "ZeroDivisionError"
  else if d_model % n_head = 0 then .ok ()
  else .error "d_model is not divisible by h"

/-- Construction outcome of `residual_attention_block` (model.py line
92): the same `assert d_model % n_head == 0`. -/
def residual_attention_block_construct (d_model n_head : ℕ) :
    Except String Unit :=
  if n_head = 0 then .error "ZeroDivisionError"
  else if d_model % n_head = 0 then .ok ()
  else .error "d_model is not divisible by h"

/-- Construction outcome of `attention` (model_mlx.py lines 46-107): the
builder performs no divisibility check at all — the head split
`reshape((B, L, num_heads, -1))` is only recorded in the graph, so any
failure is deferred to evaluation time. -/
def attention_construct (dims num_heads : ℕ) : Except String Unit :=
  .ok ()

/-- Construction outcome of `multi_head_attention_forward` (model.py
lines 225-281): the divisibility assert is commented out (line 244), so
construction always succeeds. -/
def multi_head_attention_forward_construct (embed_dim num_heads : ℕ) :
    Except String Unit :=
  .ok ()

/-! ## Concrete instances used by the evaluation theorems -/

/-- A concrete post-layer-norm hidden-state tensor: batch b, sequence
position s holds the (distinguishable) value 100*b + s. -/
def c1Hidden : ℕ → ℕ → ℕ := fun b s => 100 * b + s

/-- A concrete (1, 1, 2, 2) feature map for `attention_pool2d`: values
1, 2, 3, 6 at the four spatial positions (mean 3). -/
def c3grid : ℕ → ℕ → ℕ → ℚ := fun _ i j =>
  if i = 0 then (if j = 0 then 1 else 2) else (if j = 0 then 3 else 6)

/-- A zero positional embedding for the five tokens of the 2x2 pool. -/
def c3pos : List (List ℚ) := [[0], [0], [0], [0], [0]]

/-! ## Helper lemmas -/

theorem batch_max_length {α : Type} (input : ℕ → ℕ → α) (b : ℕ) :
    (batch_max input b).length = b + 1 := by
  induction b with
  | zero => rfl
  | succ n ih => simp [batch_max, ih]

theorem batch_max_getElem {α : Type} (input : ℕ → ℕ → α) (b i : ℕ)
    (hi : i < b + 1) : (batch_max input b)[i]? = some (input i 0) := by
  induction b with
  | zero =>
    have h0 : i = 0 := by omega
    subst h0
    rfl
  | succ n ih =>
    rw [batch_max]
    rcases Nat.lt_or_ge i (n + 1) with h | h
    · rw [List.getElem?_append_left (by rw [batch_max_length]; exact h)]
      exact ih h
    · have hi' : i = n + 1 := by omega
      subst hi'
      rw [List.getElem?_append_right (by rw [batch_max_length])]
      rw [batch_max_length]
      simp

theorem conv1x1_shape (oc b c h w : ℕ) (hh : 1 ≤ h) (hw : 1 ≤ w) :
    Convolution2D_shape oc 1 1 0 ⟨b, c, h, w⟩ = ⟨b, oc, h, w⟩ := by
  simp only [Convolution2D_shape, Shape4.mk.injEq, Nat.div_one, true_and]
  omega

theorem conv3x3p1_shape (oc b c h w : ℕ) (hh : 1 ≤ h) (hw : 1 ≤ w) :
    Convolution2D_shape oc 3 1 1 ⟨b, c, h, w⟩ = ⟨b, oc, h, w⟩ := by
  simp only [Convolution2D_shape, Shape4.mk.injEq, Nat.div_one, true_and]
  omega

theorem bottleneck_main_shape_eq (planes stride b c h w : ℕ)
    (hh : 1 ≤ h) (hw : 1 ≤ w) :
    bottleneck_main_shape planes stride ⟨b, c, h, w⟩
      = if 1 < stride then
          ⟨b, planes * 4, (h - stride) / stride + 1,
            (w - stride) / stride + 1⟩
        else ⟨b, planes * 4, h, w⟩ := by
  unfold bottleneck_main_shape
  rw [conv1x1_shape planes b c h w hh hw,
    conv3x3p1_shape planes b planes h w hh hw]
  by_cases hs : 1 < stride
  · rw [if_pos hs, if_pos hs]
    rw [show (MaxPool2D_shape stride ⟨b, planes, h, w⟩)
          = (⟨b, planes, (h - stride) / stride + 1,
              (w - stride) / stride + 1⟩ : Shape4) from rfl]
    exact conv1x1_shape (planes * 4) b planes _ _
      (Nat.succ_le_succ (Nat.zero_le _)) (Nat.succ_le_succ (Nat.zero_le _))
  · rw [if_neg hs, if_neg hs]
    exact conv1x1_shape (planes * 4) b planes h w hh hw

/-! ## Claim theorems -/

/-- C1: EOT pooling.  At the spec's own example row [5, 12, 99, 7] the
argmax index is 2, and the mlx text tower pools the hidden state at
position 2 as the claim states; but model.py's `eot_creator` (also cited
by the claim) binds the argmax to a never-consumed output and pools the
hidden state at sequence position 0 instead, which differs from the
hidden state at position 2. -/
theorem C1_eot_pooling_eval :
    argmaxIdx [5, 12, 99, 7] = 2 ∧
    clip_text_model_pool c1Hidden [[5, 12, 99, 7]] = [c1Hidden 0 2] ∧
    (eot_creator 0 c1Hidden [[5, 12, 99, 7]]).argmax = [2] ∧
    (eot_creator 0 c1Hidden [[5, 12, 99, 7]]).output = [c1Hidden 0 0] ∧
    c1Hidden 0 0 ≠ c1Hidden 0 2 := by
  decide

/-- C10: in model.py the output of `eot_creator` is independent of its
`text` input — for the same hidden-state tensor and any two text tensors
the outputs coincide — and the row pooled for batch index i is always the
hidden state at sequence position 0. -/
theorem C10_eot_text_independence (α : Type) (batch_number : ℕ)
    (input : ℕ → ℕ → α) (t1 t2 : List (List ℕ)) (i : ℕ)
    (hi : i < batch_number + 1) :
    (eot_creator batch_number input t1).output
        = (eot_creator batch_number input t2).output ∧
    (eot_creator batch_number input t1).output[i]? = some (input i 0) :=
  ⟨rfl, batch_max_getElem input batch_number i hi⟩

/-- Witness for C10 at batch_number 1, distinct text tensors, row 1. -/
theorem C10_eot_text_independence_witness :
    (eot_creator 1 (fun b s => (b, s)) [[3, 7], [9, 1]]).output
        = (eot_creator 1 (fun b s => (b, s)) [[5]]).output ∧
    (eot_creator 1 (fun b s => (b, s)) [[3, 7], [9, 1]]).output[1]?
        = some (1, 0) :=
  C10_eot_text_independence (ℕ × ℕ) 1 (fun b s => (b, s))
    [[3, 7], [9, 1]] [[5]] 1 (by decide)

/-- C2: residual wiring.  The mlx `encode_layer` computes the claimed
x + Attn(LN1(x)) + MLP(LN2(x + Attn(LN1(x)))) for every input and every
choice of sub-layers; model.py's `residual_attention_block` (also cited
by the claim) instead returns x + MLP(LN2(x + Attn(LN1(x)))), dropping
the attention term from the final residual add, and the two differ at a
concrete instance whose attention branch is nonzero. -/
theorem C2_residual_wiring :
    (∀ (α : Type) [inst : Add α] (ln1 attn ln2 mlpF : α → α) (x : α),
        encode_layer ln1 attn ln2 mlpF x
          = residual_block_spec ln1 attn ln2 mlpF x) ∧
    residual_attention_block id (fun _ => (1 : ℤ)) id (fun _ => 0) 0 = 0 ∧
    residual_block_spec id (fun _ => (1 : ℤ)) id (fun _ => 0) 0 = 1 ∧
    residual_attention_block id (fun _ => (1 : ℤ)) id (fun _ => 0) 0
      ≠ residual_block_spec id (fun _ => (1 : ℤ)) id (fun _ => 0) 0 := by
  refine ⟨?_, by decide, by decide, by decide⟩
  intro α inst ln1 attn ln2 mlpF x
  rfl

/-- C3: AttentionPool2d token sequence.  On a concrete 2x2 feature map
with values 1, 2, 3, 6 (mean 3) and zero positional embedding, the code
appends the mean row after the spatial tokens (it is the last token, not
the token at index 0), so the single query `x[:1]` is the first spatial
token, differing from the spec-side sequence that prepends the mean; the
multi-head-attention call itself receives `x[:1]` as query and the full
sequence as keys and values. -/
theorem C3_attention_pool_eval :
    attnpool_flatten c3grid 1 2 2 = [[1], [2], [3], [6]] ∧
    meanRow 1 (attnpool_flatten c3grid 1 2 2) = [3] ∧
    attention_pool2d_x c3grid 1 2 2 c3pos = [[1], [2], [3], [6], [3]] ∧
    attention_pool2d_x_spec c3grid 1 2 2 c3pos
        = [[3], [1], [2], [3], [6]] ∧
    (attention_pool2d_x c3grid 1 2 2 c3pos).take 1
        ≠ (attention_pool2d_x_spec c3grid 1 2 2 c3pos).take 1 ∧
    (∀ A, attention_pool2d A c3grid 1 2 2 c3pos
        = (A ((attention_pool2d_x c3grid 1 2 2 c3pos).take 1)
            (attention_pool2d_x c3grid 1 2 2 c3pos)
            (attention_pool2d_x c3grid 1 2 2 c3pos)).getD 0 []) := by
  refine ⟨?_, ?_, ?_, ?_, ?_, fun A => rfl⟩
  · norm_num [attnpool_flatten, c3grid, List.range_succ]
  · norm_num [meanRow, attnpool_flatten, c3grid, scaleRow, sumRows, addRow,
      List.range_succ]
  · norm_num [attention_pool2d_x, meanRow, attnpool_flatten, c3grid,
      scaleRow, sumRows, addRow, c3pos, List.range_succ]
  · norm_num [attention_pool2d_x_spec, meanRow, attnpool_flatten, c3grid,
      scaleRow, sumRows, addRow, c3pos, List.range_succ]
  · norm_num [attention_pool2d_x, attention_pool2d_x_spec, meanRow,
      attnpool_flatten, c3grid, scaleRow, sumRows, addRow, c3pos,
      List.range_succ]

/-- C4: attention-score scaling.  `multi_head_attention` (model.py) and
`attention` (model_mlx.py) hand unscaled projections to ScaledDotProduct,
so their effective pre-softmax score is QKt / sqrt(head_dim) — scaled
exactly once; `multi_head_attention_forward` (model.py, the
attention-pool path) additionally multiplies the projected queries by
head_dim ^ (-0.5), so its effective score is QKt / head_dim — the
division is applied twice, and at head_dim 4 the two differ (1/2 vs 1). -/
theorem C4_scaling_once :
    (∀ (head_dim E : ℕ) (q k : ℕ → ℕ → ℝ) (i j : ℕ),
      multi_head_attention_scores head_dim E q k i j
          = dotE E (q i) (k j) / Real.sqrt head_dim ∧
      attention_scores head_dim E q k i j
          = dotE E (q i) (k j) / Real.sqrt head_dim) ∧
    (∀ (head_dim E : ℕ) (query Wq : ℕ → ℕ → ℝ) (bq : ℕ → ℝ)
        (key Wk : ℕ → ℕ → ℝ) (bk : ℕ → ℝ) (i j : ℕ),
      multi_head_attention_forward_scores head_dim E query Wq bq key Wk bk
          i j
        = dotE E (linear_proj E Wq bq query i) (linear_proj E Wk bk key j)
            / head_dim) ∧
    (multi_head_attention_forward_scores 4 1 (fun _ _ => 2) (fun _ _ => 1)
        (fun _ => 0) (fun _ _ => 1) (fun _ _ => 1) (fun _ => 0) 0 0
      = 1 / 2 ∧
     dotE 1 (linear_proj 1 (fun _ _ => 1) (fun _ => 0) (fun _ _ => 2) 0)
        (linear_proj 1 (fun _ _ => 1) (fun _ => 0) (fun _ _ => 1) 0)
          / Real.sqrt (4 : ℕ) = 1 ∧
     (1 / 2 : ℝ) ≠ 1) := by
  have hscale : ∀ d : ℕ, mhaf_scaling d = (Real.sqrt d)⁻¹ := by
    intro d
    unfold mhaf_scaling
    rw [show (-(1 : ℝ) / 2) = -(1 / 2 : ℝ) by norm_num,
      Real.rpow_neg (Nat.cast_nonneg d), ← Real.sqrt_eq_rpow]
  have key : ∀ s X : ℝ, s⁻¹ * X / s = X / (s * s) := by
    intro s X
    rw [div_eq_mul_inv, div_eq_mul_inv, mul_inv]
    ring
  have hb : ∀ (head_dim E : ℕ) (query Wq : ℕ → ℕ → ℝ) (bq : ℕ → ℝ)
      (key2 Wk : ℕ → ℕ → ℝ) (bk : ℕ → ℝ) (i j : ℕ),
      multi_head_attention_forward_scores head_dim E query Wq bq key2 Wk bk
          i j
        = dotE E (linear_proj E Wq bq query i) (linear_proj E Wk bk key2 j)
            / head_dim := by
    intro d E query Wq bq key2 Wk bk i j
    unfold multi_head_attention_forward_scores sdp_scores mhaf_query
    have hdot :
        dotE E (fun e => linear_proj E Wq bq query i e * mhaf_scaling d)
          (linear_proj E Wk bk key2 j)
          = mhaf_scaling d *
            dotE E (linear_proj E Wq bq query i)
              (linear_proj E Wk bk key2 j) := by
      unfold dotE
      rw [Finset.mul_sum]
      exact Finset.sum_congr rfl (fun e _ => by ring)
    rw [hdot, hscale, key, Real.mul_self_sqrt (Nat.cast_nonneg d)]
  refine ⟨fun d E q k i j => ⟨rfl, rfl⟩, hb, ?_, ?_, by norm_num⟩
  · rw [hb]
    simp only [dotE, linear_proj, Finset.sum_range_one]
    norm_num
  · simp only [dotE, linear_proj, Finset.sum_range_one]
    rw [show ((4 : ℕ) : ℝ) = 2 ^ 2 by norm_num,
      Real.sqrt_sq (by norm_num : (0 : ℝ) ≤ 2)]
    norm_num

/-- C5: for every pair of projected feature matrices and every logit
scale, `logits_per_text` is the exact entrywise transpose of
`logits_per_image`, and `logits_per_image` is exp(logit_scale) times the
product of the L2-normalized image and text embeddings. -/
theorem C5_logits_transpose (D : ℕ) (logit_scale : ℝ)
    (imgF txtF : ℕ → ℕ → ℝ) (i j : ℕ) :
    logits_per_text D logit_scale imgF txtF i j
        = logits_per_image D logit_scale imgF txtF j i ∧
    logits_per_image D logit_scale imgF txtF i j
        = Real.exp logit_scale *
            ∑ k ∈ Finset.range D,
              (imgF i k / norm (.ip 2) (rowList D imgF i)) *
              (txtF j k / norm (.ip 2) (rowList D txtF j)) :=
  ⟨rfl, rfl⟩

/-- C6: bottleneck shortcut rule.  When stride = 1 and
inplanes = planes*4 the shortcut added before the final relu is the raw
block input; otherwise it is the input passed through the stride-pool,
the 1x1 convolution to planes*4 channels and the normalization; in both
branches the shortcut's shape equals the main path's shape at the add,
and the block output is relu(main + shortcut). -/
theorem C6_bottleneck_shortcut (inplanes planes stride b c h w : ℕ)
    (hs : 1 ≤ stride) (hc : c = inplanes) (hh : 1 ≤ h) (hw : 1 ≤ w) :
    (∀ (α : Type) [inst : Add α]
        (conv1 bn1 relu1 conv2 bn2 relu2 avgpool conv3 bn3 : α → α)
        (dpool dconv dbn relu3 : α → α) (x : α),
      (stride = 1 → inplanes = planes * 4 →
        bottleneck inplanes planes stride conv1 bn1 relu1 conv2 bn2 relu2
            avgpool conv3 bn3 dpool dconv dbn relu3 x
          = relu3 (bottleneck_main conv1 bn1 relu1 conv2 bn2 relu2 avgpool
              conv3 bn3 stride x + x)) ∧
      (1 < stride ∨ inplanes ≠ planes * 4 →
        bottleneck inplanes planes stride conv1 bn1 relu1 conv2 bn2 relu2
            avgpool conv3 bn3 dpool dconv dbn relu3 x
          = relu3 (bottleneck_main conv1 bn1 relu1 conv2 bn2 relu2 avgpool
              conv3 bn3 stride x + dbn (dconv (dpool x))))) ∧
    (stride = 1 → inplanes = planes * 4 →
      bottleneck_shortcut_shape inplanes planes stride ⟨b, c, h, w⟩
          = ⟨b, c, h, w⟩ ∧
      bottleneck_main_shape planes stride ⟨b, c, h, w⟩ = ⟨b, c, h, w⟩) ∧
    (1 < stride ∨ inplanes ≠ planes * 4 →
      bottleneck_shortcut_shape inplanes planes stride ⟨b, c, h, w⟩
        = bottleneck_main_shape planes stride ⟨b, c, h, w⟩) := by
  refine ⟨?_, ?_, ?_⟩
  · intro α inst conv1 bn1 relu1 conv2 bn2 relu2 avgpool conv3 bn3
      dpool dconv dbn relu3 x
    constructor
    · intro h1 h2
      subst h1
      subst h2
      unfold bottleneck
      rw [if_neg (by simp)]
    · intro hcond
      unfold bottleneck
      rw [if_pos hcond]
  · intro h1 h2
    subst h1
    constructor
    · unfold bottleneck_shortcut_shape
      rw [if_neg (by simp [h2])]
    · rw [bottleneck_main_shape_eq planes 1 b c h w hh hw,
        if_neg (by omega), hc, h2]
  · intro hcond
    unfold bottleneck_shortcut_shape
    rw [if_pos hcond, bottleneck_main_shape_eq planes stride b c h w hh hw]
    by_cases h1 : 1 < stride
    · rw [if_pos h1]
      rw [show (MaxPool2D_shape stride ⟨b, c, h, w⟩)
            = (⟨b, c, (h - stride) / stride + 1,
                (w - stride) / stride + 1⟩ : Shape4) from rfl]
      exact conv1x1_shape (planes * 4) b c _ _
        (Nat.succ_le_succ (Nat.zero_le _)) (Nat.succ_le_succ (Nat.zero_le _))
    · rw [if_neg h1]
      have hstride : stride = 1 := by omega
      subst hstride
      rw [show (MaxPool2D_shape 1 ⟨b, c, h, w⟩)
            = (⟨b, c, (h - 1) / 1 + 1, (w - 1) / 1 + 1⟩ : Shape4) from rfl]
      rw [conv1x1_shape (planes * 4) b c _ _
        (Nat.succ_le_succ (Nat.zero_le _)) (Nat.succ_le_succ (Nat.zero_le _))]
      simp only [Shape4.mk.injEq, Nat.div_one, true_and]
      omega

/-- Witness for C6: the identity branch at (inplanes 256, planes 64,
stride 1) and the projection branch at (inplanes 256, planes 128,
stride 2), both on a (1, 256, 56, 56) input. -/
theorem C6_bottleneck_shortcut_witness :
    (bottleneck_shortcut_shape 256 64 1 ⟨1, 256, 56, 56⟩
        = ⟨1, 256, 56, 56⟩ ∧
     bottleneck_main_shape 64 1 ⟨1, 256, 56, 56⟩ = ⟨1, 256, 56, 56⟩) ∧
    bottleneck_shortcut_shape 256 128 2 ⟨1, 256, 56, 56⟩
      = bottleneck_main_shape 128 2 ⟨1, 256, 56, 56⟩ :=
  ⟨(C6_bottleneck_shortcut 256 64 1 1 256 56 56 (by decide) rfl (by decide)
      (by decide)).2.1 rfl rfl,
   (C6_bottleneck_shortcut 256 128 2 1 256 56 56 (by decide) rfl (by decide)
      (by decide)).2.2 (Or.inl (by decide))⟩

/-- C7: with the causal mask built from
arange(77)[..., None] >= arange(77)[None, ...] selecting 0 else -inf, the
mask entry at any pair (i, j) with j > i is -inf, and the post-softmax
attention weight from position i to position j is zero, for every score
tensor. -/
theorem C7_causal_mask_zero (scores : ℕ → ℕ → ℝ) (i j : ℕ)
    (hij : i < j) :
    build_attention_mask i j = MaskVal.negInf ∧
    attn_weight scores i j = 0 := by
  have hm : build_attention_mask i j = MaskVal.negInf := by
    unfold build_attention_mask
    rw [if_neg (by omega)]
  refine ⟨hm, ?_⟩
  unfold attn_weight
  rw [hm]
  simp [maskedExp]

/-- Witness for C7 at positions i 0, j 1 with zero scores. -/
theorem C7_causal_mask_zero_witness :
    build_attention_mask 0 1 = MaskVal.negInf ∧
    attn_weight (fun _ _ => 0) 0 1 = 0 :=
  C7_causal_mask_zero (fun _ _ => 0) 0 1 (by decide)

/-- C8 counterexample: the mlx `attention` builder and model.py's
`multi_head_attention_forward` construct successfully at d_model 3,
n_head 2 even though 3 is not divisible by 2, refuting the claim that
every attention component fails at construction time. -/
theorem C8_counterexample :
    3 % 2 ≠ 0 ∧
    attention_construct 3 2 = Except.ok () ∧
    multi_head_attention_forward_construct 3 2 = Except.ok () :=
  ⟨by decide, rfl, rfl⟩

/-- C8 (amended): model.py's `multi_head_attention` and
`residual_attention_block` fail at construction exactly when
d_model % n_head is nonzero, while the mlx `attention` and model.py's
`multi_head_attention_forward` perform no divisibility check and always
construct successfully. -/
theorem C8_construction_checks (d_model n_head : ℕ) (hn : 0 < n_head) :
    (multi_head_attention_construct d_model n_head = Except.ok ()
        ↔ d_model % n_head = 0) ∧
    (residual_attention_block_construct d_model n_head = Except.ok ()
        ↔ d_model % n_head = 0) ∧
    attention_construct d_model n_head = Except.ok () ∧
    multi_head_attention_forward_construct d_model n_head
        = Except.ok () := by
  have hn' : n_head ≠ 0 := Nat.pos_iff_ne_zero.mp hn
  refine ⟨?_, ?_, rfl, rfl⟩ <;>
  · by_cases hd : d_model % n_head = 0 <;>
      simp [multi_head_attention_construct,
        residual_attention_block_construct, hn', hd]

/-- Witness for C8 (amended) at the text-tower configuration d_model 768,
n_head 12. -/
theorem C8_construction_checks_witness :
    (multi_head_attention_construct 768 12 = Except.ok ()
        ↔ 768 % 12 = 0) ∧
    (residual_attention_block_construct 768 12 = Except.ok ()
        ↔ 768 % 12 = 0) ∧
    attention_construct 768 12 = Except.ok () ∧
    multi_head_attention_forward_construct 768 12 = Except.ok () :=
  C8_construction_checks 768 12 (by decide)

/-- C9: the norm component computes, for the values along the configured
axis: with p = 2 the square root of the sum of squares; with p = 1 the
sum of absolute values; with p = "inf" the maximum of absolute values;
and for any other p the sum of |x|^p raised to the power 1/p. -/
theorem C9_norm_formulas (xs : List ℝ) :
    norm .inf xs = maxA (xs.map (fun x => |x|)) ∧
    norm (.ip 1) xs = (xs.map (fun x => |x|)).sum ∧
    norm (.ip 2) xs = Real.sqrt ((xs.map (fun x => x ^ 2)).sum) ∧
    (∀ p : ℕ, p ≠ 1 → p ≠ 2 →
      norm (.ip p) xs
        = ((xs.map (fun x => |x| ^ p)).sum) ^ ((1 : ℝ) / p)) := by
  refine ⟨rfl, rfl, rfl, ?_⟩
  intro p hp1 hp2
  have hmap : ∀ q : ℕ, powT q (absT xs) = xs.map (fun x => |x| ^ q) := by
    intro q
    rw [powT, absT, List.map_map]
    rfl
  rcases p with _ | _ | _ | n
  · rw [show norm (.ip 0) xs
        = powS ((1 : ℝ) / (0 : ℕ)) (sumA (powT 0 (absT xs))) from rfl,
      powS, sumA, hmap]
  · exact absurd rfl hp1
  · exact absurd rfl hp2
  · rw [show norm (.ip (n + 3)) xs
        = powS ((1 : ℝ) / (n + 3 : ℕ)) (sumA (powT (n + 3) (absT xs)))
        from rfl,
      powS, sumA, hmap]

/-- Witness for C9 at p 3 on the axis values [3, -4]. -/
theorem C9_norm_formulas_witness :
    norm (.ip 3) [(3 : ℝ), -4]
      = (([(3 : ℝ), -4].map (fun x => |x| ^ 3)).sum) ^ ((1 : ℝ) / 3) :=
  (C9_norm_formulas [(3 : ℝ), -4]).2.2.2 3 (by decide) (by decide)
